import Mathlib

/-!
Shallow embedding of the `rivo` real-estate backend (FastAPI/SQLAlchemy) in
Lean 4, used to settle the specification claims about the authentication,
authorization, property, and property-image subsystems.

Conventions of the embedding:
* Python `dict`-backed database rows become Lean structures; the database
  session becomes an explicit `DB` state record threaded through handlers.
* SQLAlchemy `.scalars().first()` on a `select ... where` becomes
  `List.find?`.
* An HTTP endpoint handler becomes a pure function returning
  `Except HError result`; raising `HTTPException(code, detail)` becomes
  returning the corresponding `HError` constructor.
* The JOSE JWT library is modelled symbolically: a signed token is a record
  of the signing secret and its claims; `jwt.decode` succeeds exactly when
  the verification secret matches the signing secret and the token is not
  expired (jose raises `ExpiredSignatureError` when `exp < now`).
* The passlib bcrypt context is modelled symbolically by an injective
  hashing function; `verify` is comparison against the recomputed hash.
* Wall-clock time is an explicit `now : Nat` (unix seconds) parameter.
* External adapters (object storage, OpenAI captioning) are passed as
  function parameters; a fallible adapter call is an `Except Unit _` value.
-/

/-- HTTP-level error taxonomy, mirroring the `HTTPException(status_code, detail)`
values raised in the source plus the 422 produced by FastAPI/pydantic request
validation. -/
inductive HError where
  | unauthorized (detail : String)    -- 401
  | forbidden (detail : String)       -- 403
  | notFound (detail : String)        -- 404
  | badRequest (detail : String)      -- 400
  | validationError (detail : String) -- 422 (pydantic request validation)
  | internalError (detail : String)   -- 500 (uncaught Python exception)
  deriving Repr, DecidableEq

/-- Numeric HTTP status of an error value. -/
def HError.status : HError → Nat
  | .unauthorized _ => 401
  | .forbidden _ => 403
  | .notFound _ => 404
  | .badRequest _ => 400
  | .validationError _ => 422
  | .internalError _ => 500

/-- Numeric HTTP status of a handler outcome (200 on success). -/
def statusCode {α : Type} : Except HError α → Nat
  | .ok _ => 200
  | .error e => e.status

/-! ## `app/core/security.py` -/

/-- Fixed JWT settings from `app/core/security.py`. -/
def ACCESS_TOKEN_EXPIRE_MINUTES : Nat := 30

/-- Refresh-token lifetime in days from `app/core/security.py`. -/
def REFRESH_TOKEN_EXPIRE_DAYS : Nat := 7

/-- Claims carried by a locally issued JWT.  At every `jwt.encode` call site in
the source the data dict is `{"sub": str(user.id)}`, to which
`create_access_token` adds `exp` and `create_refresh_token` adds `exp` and
`token_type: "refresh"`. -/
structure Claims where
  sub : String
  exp : Nat
  token_type : Option String
  deriving Repr, DecidableEq

/-- Symbolic model of a signed JWT (`jwt.encode(claims, secret, HS256)`): the
token records the signing secret and the claims; decoding with the right
secret recovers exactly the claims, decoding with any other secret fails. -/
structure JwtToken where
  secret : String
  claims : Claims
  deriving Repr, DecidableEq

/-- Embedding of `create_access_token(data)` for the call shape
`create_access_token({"sub": sub})` used everywhere in the source: expiry is
`now + 30 minutes`, and no `token_type` claim is set. -/
def create_access_token (secret : String) (sub : String) (now : Nat) : JwtToken :=
  { secret := secret
    claims := { sub := sub, exp := now + ACCESS_TOKEN_EXPIRE_MINUTES * 60, token_type := none } }

/-- Embedding of `create_refresh_token(data)` for the call shape
`create_refresh_token({"sub": sub})`: expiry is `now + 7 days`, and the claims
are tagged `token_type = "refresh"`. -/
def create_refresh_token (secret : String) (sub : String) (now : Nat) : JwtToken :=
  { secret := secret
    claims := { sub := sub, exp := now + REFRESH_TOKEN_EXPIRE_DAYS * 86400,
                token_type := some "refresh" } }

/-- Embedding of `verify_token(token)`: `jwt.decode(token, secret, [HS256])`
returns the payload when the signature checks out and the token is not
expired (jose treats the token as expired when `exp < now`); on any
`JWTError` the function returns `None`. -/
def verify_token (secret : String) (now : Nat) (t : JwtToken) : Option Claims :=
  if t.secret = secret ∧ now ≤ t.claims.exp then some t.claims else none

/-- Symbolic model of `pwd_context.hash` (passlib bcrypt): an injective
one-way function of the plaintext. -/
def get_password_hash (password : String) : String :=
  "bcrypt$" ++ password

/-- Embedding of `verify_password(plain, hashed)`: passlib's `verify` accepts
exactly the hashes produced from the same plaintext. -/
def verify_password (plain_password hashed_password : String) : Bool :=
  hashed_password == get_password_hash plain_password

/-! ## Data model (`app/models/*.py`) -/

/-- Row of the `users` table (`app/models/user.py`). -/
structure DBUser where
  id : String
  email : String
  hashed_password : Option String
  full_name : Option String
  auth_provider : String
  google_id : Option String
  supabase_id : Option String
  is_active : Bool
  deriving Repr, DecidableEq

/-- Row of the `properties` table (`app/models/property.py`); only the columns
the verified handlers read or write are carried, with the remaining listing
columns grouped as in the pydantic schema. -/
structure PropertyRow where
  id : String
  user_id : String
  title : String
  description : Option String
  category : String
  city : Option String
  state : Option String
  price : Option Int
  bedrooms : Option Int
  bathrooms : Option Int
  is_published : Bool
  deriving Repr, DecidableEq

/-- Row of the `property_images` table (`app/models/property_image.py`).
`created_at` is the insertion counter: rows are stamped with the strictly
increasing `DB.nextId`, so it orders rows by creation time. -/
structure PImage where
  id : Nat
  property_id : String
  storage_path : String
  url : String
  caption : Option String
  ai_generated_description : Option String
  is_primary : Bool
  created_at : Nat
  deriving Repr, DecidableEq

/-- Database state threaded through the handlers in place of the SQLAlchemy
session.  `nextId` supplies fresh surrogate ids and creation timestamps. -/
structure DB where
  users : List DBUser
  properties : List PropertyRow
  images : List PImage
  nextId : Nat
  deriving Repr, DecidableEq

/-- Authenticated caller produced by `app/services/supabase.py`:
`SupabaseUser.id` is the `sub` claim of the validated supabase JWT. -/
structure SupabaseUser where
  id : String
  email : String
  deriving Repr, DecidableEq

/-- Look up the caller's local `users` row, as every property endpoint does:
`select(User).where(User.supabase_id == current_user.id)` then `.first()`. -/
def DB.findBySupabaseId (db : DB) (cu : SupabaseUser) : Option DBUser :=
  db.users.find? (fun u => u.supabase_id == some cu.id)

/-- Look up a property by primary key, as in
`select(Property).where(Property.id == property_id)` then `.first()`. -/
def DB.findProperty (db : DB) (property_id : String) : Option PropertyRow :=
  db.properties.find? (fun p => p.id == property_id)

/-- Images belonging to a property (the `Property.images` relationship). -/
def DB.imagesOf (db : DB) (property_id : String) : List PImage :=
  db.images.filter (fun i => i.property_id == property_id)

/-- Images of a property whose `is_primary` flag is set. -/
def DB.primaryImages (db : DB) (property_id : String) : List PImage :=
  db.images.filter (fun i => i.property_id == property_id && i.is_primary)

/-! ## `app/services/supabase.py` and the FastAPI `HTTPBearer` scheme -/

/-- Claims of a supabase-issued JWT as read by `get_current_user`
(`sub`, `email`, and the optionally present `exp`). -/
structure SupabaseClaims where
  sub : String
  email : String
  exp : Option Nat
  deriving Repr, DecidableEq

/-- Symbolic model of a supabase JWT, as for `JwtToken`. -/
structure SupabaseToken where
  secret : String
  claims : SupabaseClaims
  deriving Repr, DecidableEq

/-- Embedding of `get_current_user` from `app/services/supabase.py` given the
extracted bearer credentials: `jwt.decode` with `SUPABASE_JWT_SECRET` (any
`JWTError`, i.e. bad signature or expired token, yields 401 "Could not
validate credentials"); then the handler itself rejects payloads without an
`exp` claim. -/
def supabase_get_current_user (jwt_secret : String) (now : Nat) (t : SupabaseToken) :
    Except HError SupabaseUser :=
  if t.secret ≠ jwt_secret then .error (.unauthorized "Could not validate credentials")
  else
    match t.claims.exp with
    | some e =>
        if e < now then .error (.unauthorized "Could not validate credentials")
        else .ok { id := t.claims.sub, email := t.claims.email }
    | none => .error (.unauthorized "Token has no expiration")

/-- Embedding of the module-level `security = HTTPBearer()` dependency: with
the default `auto_error=True`, a request with no (Bearer) Authorization
header is rejected with 403 "Not authenticated" before any handler or
further dependency runs. -/
def http_bearer (auth : Option SupabaseToken) : Except HError SupabaseToken :=
  match auth with
  | none => .error (.forbidden "Not authenticated")
  | some t => .ok t

/-! ## `app/api/endpoints/properties.py` -/

/-- Response shape of `GET /properties/{id}`: the property row with the two
derived fields computed by the handler. -/
structure PropertyOut where
  property : PropertyRow
  primary_image_url : Option String
  image_count : Nat
  deriving Repr, DecidableEq

/-- Embedding of the `get_property` handler (lines 158-224): 404 when the row
is absent; when unpublished, 403 for a missing caller, a caller with no
local row, or a caller whose local row is not the owner; otherwise the
property enriched with `primary_image_url` and `image_count`. -/
def get_property (db : DB) (property_id : String) (current_user : Option SupabaseUser) :
    Except HError PropertyOut :=
  match db.findProperty property_id with
  | none => .error (.notFound "Property not found")
  | some property =>
    let check : Except HError Unit :=
      if property.is_published then .ok ()
      else
        match current_user with
        | none => .error (.forbidden "Property is not published")
        | some cu =>
          match db.findBySupabaseId cu with
          | none => .error (.forbidden "Property is not published")
          | some db_user =>
            if property.user_id ≠ db_user.id then
              .error (.forbidden "Property is not published")
            else .ok ()
    match check with
    | .error e => .error e
    | .ok _ =>
      let imgs := db.imagesOf property.id
      let primary_image := imgs.find? (fun i => i.is_primary)
      .ok { property := property
            primary_image_url := primary_image.map (fun i => i.url)
            image_count := imgs.length }

/-- Composition of the bearer scheme, the supabase guard, and the
`get_property` handler, i.e. the full `GET /properties/{id}` request path:
`auth` is the parsed Authorization header (`none` when the header is
absent). -/
def http_get_property (db : DB) (property_id : String) (jwt_secret : String) (now : Nat)
    (auth : Option SupabaseToken) : Except HError PropertyOut :=
  match http_bearer auth with
  | .error e => .error e
  | .ok t =>
    match supabase_get_current_user jwt_secret now t with
    | .error e => .error e
    | .ok cu => get_property db property_id (some cu)

/-- Ordering used by `get_property_images`:
`order_by(PropertyImage.is_primary.desc(), PropertyImage.created_at)`. -/
def image_order (x y : PImage) : Bool :=
  if x.is_primary == y.is_primary then decide (x.created_at ≤ y.created_at)
  else x.is_primary

/-- Embedding of the `get_property_images` handler (lines 472-532).  Note the
guard in the source is `if not property.is_published and current_user:`, so
the ownership check runs only when a caller is present. -/
def get_property_images (db : DB) (property_id : String)
    (current_user : Option SupabaseUser) : Except HError (List PImage) :=
  match db.findProperty property_id with
  | none => .error (.notFound "Property not found")
  | some property =>
    let check : Except HError Unit :=
      match current_user with
      | some cu =>
        if ¬property.is_published then
          match db.findBySupabaseId cu with
          | none => .error (.forbidden "Property is not published")
          | some db_user =>
            if property.user_id ≠ db_user.id then
              .error (.forbidden "Property is not published")
            else .ok ()
        else .ok ()
      | none => .ok ()
    match check with
    | .error e => .error e
    | .ok _ => .ok ((db.imagesOf property_id).mergeSort image_order)

/-- Embedding of the `upload_property_image` handler (lines 362-469).  The
storage adapter is the function `store` from storage path to public URL; the
captioning adapter call `openai_service.generate_image_description(url)` is
the fallible `gen_description`, whose failure the handler catches and turns
into a null `ai_generated_description` (the `try/except` at lines 435-439).
When `is_primary` is set, every existing image of the property has its flag
cleared before the new row is inserted. -/
def upload_property_image (db : DB) (property_id : String) (caption : Option String)
    (is_primary : Bool) (filename : String) (cu : SupabaseUser)
    (store : String → String) (gen_description : String → Except Unit String) :
    Except HError (PImage × DB) :=
  match db.findBySupabaseId cu with
  | none => .error (.notFound "User not found in database")
  | some db_user =>
    match db.findProperty property_id with
    | none => .error (.notFound "Property not found")
    | some property =>
      if property.user_id ≠ db_user.id then
        .error (.forbidden "Not authorized to upload images for this property")
      else
        let storage_path := "properties/" ++ property_id ++ "/" ++ filename
        let url := store storage_path
        let ai_description : Option String :=
          match gen_description url with
          | .ok d => some d
          | .error _ => none
        let cleared : List PImage :=
          if is_primary then
            db.images.map (fun img =>
              if img.property_id == property_id then { img with is_primary := false } else img)
          else db.images
        let new_image : PImage :=
          { id := db.nextId, property_id := property_id, storage_path := storage_path
            url := url, caption := caption, ai_generated_description := ai_description
            is_primary := is_primary, created_at := db.nextId }
        .ok (new_image, { db with images := cleared ++ [new_image], nextId := db.nextId + 1 })

/-- Parameters of one image-upload request. -/
structure UploadReq where
  caption : Option String
  is_primary : Bool
  filename : String
  deriving Repr, DecidableEq

/-- Sequential composition of `upload_property_image` calls by the same
caller on the same property, stopping at the first error. -/
def upload_sequence (property_id : String) (cu : SupabaseUser) (store : String → String)
    (gen_description : String → Except Unit String) :
    DB → List UploadReq → Except HError DB
  | db, [] => .ok db
  | db, r :: rs =>
    match upload_property_image db property_id r.caption r.is_primary r.filename cu
        store gen_description with
    | .error e => .error e
    | .ok (_, db') => upload_sequence property_id cu store gen_description db' rs

/-! ## `app/schemas/property.py` -/

/-- Allowed category values from `PropertyCreate.validate_category`. -/
def allowed_categories : List String :=
  ["residential", "commercial", "land", "industrial",
   "apartment", "house", "condo", "townhouse", "other"]

/-- Embedding of Python `str.lower()`: character-wise lowercasing (the
categories involved are ASCII, where `Char.toLower` agrees with Python). -/
def str_lower (s : String) : String :=
  String.mk (s.data.map Char.toLower)

/-- Embedding of the `validate_category` field validator: rejects a value
whose lowercasing is not in the allowed list, otherwise returns the
lowercased value. -/
def validate_category (v : String) : Except String String :=
  if allowed_categories.contains (str_lower v) then .ok (str_lower v)
  else .error ("Category must be one of: " ++ String.intercalate ", " allowed_categories)

/-- Raw request body of `POST /properties/`, before pydantic validation. -/
structure PropertyCreateInput where
  title : String
  description : Option String
  category : String
  city : Option String
  state : Option String
  price : Option Int
  bedrooms : Option Int
  bathrooms : Option Int
  is_published : Bool
  deriving Repr, DecidableEq

/-- Validated `PropertyCreate` data (post pydantic validation, category
normalized to lowercase). -/
structure PropertyCreateData where
  title : String
  description : Option String
  category : String
  city : Option String
  state : Option String
  price : Option Int
  bedrooms : Option Int
  bathrooms : Option Int
  is_published : Bool
  deriving Repr, DecidableEq

/-- Embedding of pydantic validation of a `PropertyCreate` body: the `Field`
length constraints on `title` and `category` run first, then the
`validate_category` field validator; any failure is a 422 response produced
before the handler runs. -/
def parse_property_create (i : PropertyCreateInput) : Except HError PropertyCreateData :=
  if ¬(3 ≤ i.title.length ∧ i.title.length ≤ 255) then
    .error (.validationError "title: length must be between 3 and 255")
  else if ¬(2 ≤ i.category.length ∧ i.category.length ≤ 50) then
    .error (.validationError "category: length must be between 2 and 50")
  else
    match validate_category i.category with
    | .error msg => .error (.validationError msg)
    | .ok cat =>
      .ok { title := i.title, description := i.description, category := cat
            city := i.city, state := i.state, price := i.price
            bedrooms := i.bedrooms, bathrooms := i.bathrooms
            is_published := i.is_published }

/-- Partial-update body of `PUT /properties/{id}` (`PropertyUpdate` with
`exclude_unset` semantics: `none` means the field was absent from the
request). -/
structure PropertyUpdateData where
  title : Option String
  description : Option String
  category : Option String
  city : Option String
  state : Option String
  price : Option Int
  bedrooms : Option Int
  bathrooms : Option Int
  is_published : Option Bool
  deriving Repr, DecidableEq

/-! ## Property create / update / delete handlers -/

/-- Embedding of the `create_property` handler (lines 28-74): resolve the
caller's local user row (404 when absent), then insert the new property
owned by that user.  No `is_active` check is performed by this handler. -/
def create_property (db : DB) (property_data : PropertyCreateData) (cu : SupabaseUser) :
    Except HError (PropertyRow × DB) :=
  match db.findBySupabaseId cu with
  | none => .error (.notFound "User not found in database")
  | some db_user =>
    let new_property : PropertyRow :=
      { id := "prop-" ++ toString db.nextId, user_id := db_user.id
        title := property_data.title, description := property_data.description
        category := property_data.category, city := property_data.city
        state := property_data.state, price := property_data.price
        bedrooms := property_data.bedrooms, bathrooms := property_data.bathrooms
        is_published := property_data.is_published }
    .ok (new_property,
         { db with properties := db.properties ++ [new_property], nextId := db.nextId + 1 })

/-- Full `POST /properties/` request path at the persistence level: pydantic
validation of the body, then the handler; on any error the database state is
returned unchanged, so persistence effects are observable. -/
def create_property_run (db : DB) (i : PropertyCreateInput) (cu : SupabaseUser) :
    Except HError PropertyRow × DB :=
  match parse_property_create i with
  | .error e => (.error e, db)
  | .ok pd =>
    match create_property db pd cu with
    | .error e => (.error e, db)
    | .ok (p, db') => (.ok p, db')

/-- Field-by-field application of `setattr(property, field, value)` over
`property_data.model_dump(exclude_unset=True)`. -/
def apply_property_update (p : PropertyRow) (u : PropertyUpdateData) : PropertyRow :=
  { p with
    title := u.title.getD p.title
    description := match u.description with | some d => some d | none => p.description
    category := u.category.getD p.category
    city := match u.city with | some c => some c | none => p.city
    state := match u.state with | some s => some s | none => p.state
    price := match u.price with | some v => some v | none => p.price
    bedrooms := match u.bedrooms with | some v => some v | none => p.bedrooms
    bathrooms := match u.bathrooms with | some v => some v | none => p.bathrooms
    is_published := u.is_published.getD p.is_published }

/-- Embedding of the `update_property` handler (lines 227-297): user lookup
(404), property lookup (404), ownership check (403), then the partial
update. -/
def update_property (db : DB) (property_id : String) (property_data : PropertyUpdateData)
    (cu : SupabaseUser) : Except HError (PropertyRow × DB) :=
  match db.findBySupabaseId cu with
  | none => .error (.notFound "User not found in database")
  | some db_user =>
    match db.findProperty property_id with
    | none => .error (.notFound "Property not found")
    | some property =>
      if property.user_id ≠ db_user.id then
        .error (.forbidden "Not authorized to update this property")
      else
        let p' := apply_property_update property property_data
        .ok (p', { db with properties :=
                    db.properties.map (fun q => if q.id == property_id then p' else q) })

/-- Embedding of the `delete_property` handler (lines 300-359): user lookup
(404), property lookup (404), ownership check (403), then deletion; the
`ondelete="CASCADE"` foreign key removes the property's images with it. -/
def delete_property (db : DB) (property_id : String) (cu : SupabaseUser) :
    Except HError DB :=
  match db.findBySupabaseId cu with
  | none => .error (.notFound "User not found in database")
  | some db_user =>
    match db.findProperty property_id with
    | none => .error (.notFound "Property not found")
    | some property =>
      if property.user_id ≠ db_user.id then
        .error (.forbidden "Not authorized to delete this property")
      else
        .ok { db with
              properties := db.properties.filter (fun q => ¬(q.id == property_id))
              images := db.images.filter (fun i => ¬(i.property_id == property_id)) }

/-! ## `app/api/deps.py` -/

/-- Embedding of `get_current_active_user`: resolve the local user row by
supabase id (404 "User not found in database" when absent), then reject
inactive users with 403 "Inactive user".  This dependency is defined and
exported but no property endpoint depends on it. -/
def get_current_active_user (db : DB) (cu : SupabaseUser) : Except HError DBUser :=
  match db.findBySupabaseId cu with
  | none => .error (.notFound "User not found in database")
  | some user =>
    if ¬user.is_active then .error (.forbidden "Inactive user")
    else .ok user

/-! ## `app/schemas/user.py` and `app/api/endpoints/auth.py` -/

/-- Embedding of the `UserCreate` pydantic schema as declared in
`app/schemas/user.py`: fields `email`, `full_name`, `is_active`, and the
required `supabase_id`.  The schema declares no `password` field. -/
structure UserCreate where
  email : String
  full_name : Option String
  is_active : Bool
  supabase_id : String
  deriving Repr, DecidableEq

/-- Dynamic attribute lookup on a `UserCreate` instance, as performed by
Python's `user_data.<name>`: only the string-typed declared fields resolve
(`is_active` is boolean and is never read by the register handler); any
other name raises `AttributeError`, modelled as `none`. -/
def UserCreate.getAttr (u : UserCreate) (name : String) : Option String :=
  if name = "email" then some u.email
  else if name = "full_name" then u.full_name
  else if name = "supabase_id" then some u.supabase_id
  else none

/-- Token pair returned by the auth endpoints (`Token` response model). -/
structure TokenPair where
  access_token : JwtToken
  refresh_token : JwtToken
  token_type : String
  deriving Repr, DecidableEq

/-- Embedding of the `register_user` handler (`POST /auth/register`, lines
103-159): duplicate-email check (400), then
`get_password_hash(user_data.password)` — `UserCreate` declares no
`password` attribute, so this access raises `AttributeError`, surfaced by
FastAPI as a 500 response; the remainder of the handler (user insertion and
token issuance) is embedded as written for the hypothetical case where the
attribute resolves. -/
def register_user (db : DB) (secret : String) (now : Nat) (user_data : UserCreate) :
    Except HError (TokenPair × DB) :=
  match db.users.find? (fun u => u.email == user_data.email) with
  | some _ => .error (.badRequest "Email already registered")
  | none =>
    match user_data.getAttr "password" with
    | none => .error (.internalError "AttributeError: UserCreate object has no attribute password")
    | some password =>
      let new_user : DBUser :=
        { id := "user-" ++ toString db.nextId, email := user_data.email
          hashed_password := some (get_password_hash password)
          full_name := some (user_data.full_name.getD "")
          auth_provider := "email", google_id := none, supabase_id := none
          is_active := true }
      .ok ({ access_token := create_access_token secret new_user.id now
             refresh_token := create_refresh_token secret new_user.id now
             token_type := "bearer" },
           { db with users := db.users ++ [new_user], nextId := db.nextId + 1 })

/-- Embedding of the `login` handler (`POST /auth/login`, lines 162-207):
look up the user by email (the form's `username`), verify the password
against `hashed_password or ""`, and issue a token pair with the user's id
as subject. -/
def login (db : DB) (secret : String) (now : Nat) (username password : String) :
    Except HError TokenPair :=
  match db.users.find? (fun u => u.email == username) with
  | none => .error (.unauthorized "Incorrect email or password")
  | some user =>
    if verify_password password (user.hashed_password.getD "") then
      .ok { access_token := create_access_token secret user.id now
            refresh_token := create_refresh_token secret user.id now
            token_type := "bearer" }
    else .error (.unauthorized "Incorrect email or password")

/-- Embedding of the `refresh_token` handler (`POST /auth/refresh-token`,
lines 307-357): `verify_token` must succeed and the payload must carry
`token_type == "refresh"` (401 otherwise); an empty (falsy) `sub` is a 401;
an unknown subject is a 404; otherwise a fresh token pair is issued for the
resolved user. -/
def refresh_token (db : DB) (secret : String) (now : Nat) (tok : JwtToken) :
    Except HError TokenPair :=
  match verify_token secret now tok with
  | none => .error (.unauthorized "Invalid refresh token")
  | some payload =>
    if payload.token_type ≠ some "refresh" then
      .error (.unauthorized "Invalid refresh token")
    else if payload.sub = "" then
      .error (.unauthorized "Invalid token payload")
    else
      match db.users.find? (fun u => u.id == payload.sub) with
      | none => .error (.notFound "User not found")
      | some user =>
        .ok { access_token := create_access_token secret user.id now
              refresh_token := create_refresh_token secret user.id now
              token_type := "bearer" }

/-- Embedding of the `get_current_user` dependency of `auth.py` (lines
58-100): verify the locally issued token, reject missing payload or falsy
`sub` with 401, resolve the user by primary key with 404. -/
def auth_get_current_user (db : DB) (secret : String) (now : Nat) (tok : JwtToken) :
    Except HError DBUser :=
  match verify_token secret now tok with
  | none => .error (.unauthorized "Invalid authentication credentials")
  | some payload =>
    if payload.sub = "" then .error (.unauthorized "Invalid token payload")
    else
      match db.users.find? (fun u => u.id == payload.sub) with
      | none => .error (.notFound "User not found")
      | some user => .ok user

/-! ## `app/services/openai_service.py` -/

/-- Title/description pair produced by the captioning adapter. -/
structure TitleDescription where
  title : String
  description : String
  deriving Repr, DecidableEq

/-- Title/description extraction from the model response text in
`generate_property_description` (lines 72-95): split into lines; when the
first line is nonempty, the title is the part after the first ":" (or the
whole first line), trimmed, and the description is the remaining lines
joined and trimmed; otherwise the title is empty and the description is the
full text. -/
def extract_title_description (full_text : String) : TitleDescription :=
  match full_text.splitOn "\n" with
  | [] => { title := "", description := full_text }
  | first :: rest =>
    if first ≠ "" then
      let title :=
        if first.contains ':' then
          (String.intercalate ":" ((first.splitOn ":").drop 1)).trim
        else first.trim
      { title := title, description := (String.intercalate "\n" rest).trim }
    else { title := "", description := full_text }

/-- Embedding of `generate_property_description` (lines 20-102) as a function
of the outcome of the OpenAI chat-completion call: on success the response
text is parsed into a title/description pair; on any exception the fixed
fallback pair is returned (lines 97-102). -/
def generate_property_description (api_result : Except Unit String) : TitleDescription :=
  match api_result with
  | .ok full_text => extract_title_description full_text
  | .error _ => { title := "Property Listing", description := "No description available." }

/-! ## Concrete fixtures used by witness and counterexample theorems -/

/-- Example user owning the example properties. -/
def alice : DBUser :=
  { id := "u1", email := "alice@example.com"
    hashed_password := some (get_password_hash "pw1"), full_name := some "Alice"
    auth_provider := "email", google_id := none, supabase_id := some "s1"
    is_active := true }

/-- Example user who owns nothing. -/
def bob : DBUser :=
  { id := "u2", email := "bob@example.com", hashed_password := none
    full_name := some "Bob", auth_provider := "email", google_id := none
    supabase_id := some "s2", is_active := true }

/-- Example user whose `is_active` flag is false. -/
def carol_inactive : DBUser :=
  { id := "u3", email := "carol@example.com", hashed_password := none
    full_name := some "Carol", auth_provider := "email", google_id := none
    supabase_id := some "s3", is_active := false }

/-- Supabase caller resolving to `alice`. -/
def alice_caller : SupabaseUser := { id := "s1", email := "alice@example.com" }

/-- Supabase caller resolving to `bob`. -/
def bob_caller : SupabaseUser := { id := "s2", email := "bob@example.com" }

/-- Supabase caller resolving to `carol_inactive`. -/
def carol_caller : SupabaseUser := { id := "s3", email := "carol@example.com" }

/-- Supabase caller with no matching local user row. -/
def ghost_caller : SupabaseUser := { id := "s9", email := "ghost@example.com" }

/-- Unpublished property owned by `alice`. -/
def unpublished_prop : PropertyRow :=
  { id := "p1", user_id := "u1", title := "Nice flat", description := none
    category := "apartment", city := none, state := none, price := none
    bedrooms := none, bathrooms := none, is_published := false }

/-- Published property owned by `alice`. -/
def published_prop : PropertyRow :=
  { id := "p2", user_id := "u1", title := "Published flat", description := none
    category := "house", city := none, state := none, price := none
    bedrooms := none, bathrooms := none, is_published := true }

/-- Pre-existing primary image of the unpublished property. -/
def example_image : PImage :=
  { id := 1, property_id := "p1", storage_path := "properties/p1/old.jpg"
    url := "https://bucket.s3.amazonaws.com/properties/p1/old.jpg"
    caption := none, ai_generated_description := none, is_primary := true
    created_at := 1 }

/-- Example database state. -/
def exampleDb : DB :=
  { users := [alice, bob, carol_inactive]
    properties := [unpublished_prop, published_prop]
    images := [example_image]
    nextId := 10 }

/-- Validated property-creation payload used by counterexamples. -/
def apartment_data : PropertyCreateData :=
  { title := "My Home", description := none, category := "apartment"
    city := none, state := none, price := none, bedrooms := none
    bathrooms := none, is_published := true }

/-- Raw `POST /properties/` body with the given category. -/
def example_input (category : String) : PropertyCreateInput :=
  { title := "My Home", description := none, category := category
    city := none, state := none, price := none, bedrooms := none
    bathrooms := none, is_published := true }

/-- Example storage adapter (deterministic public URL for a path). -/
def ex_store : String → String := fun path => "https://bucket.s3.amazonaws.com/" ++ path

/-- Captioning adapter that always succeeds. -/
def ex_gen_ok : String → Except Unit String := fun _ => .ok "A bright room."

/-- Captioning adapter that always fails. -/
def ex_gen_fail : String → Except Unit String := fun _ => .error ()

/-- Example upload requests: only the second is marked primary. -/
def req_a : UploadReq := { caption := none, is_primary := false, filename := "a.jpg" }

/-- Primary upload request of the example sequence. -/
def req_b : UploadReq := { caption := some "front", is_primary := true, filename := "b.jpg" }

/-- Final non-primary upload request of the example sequence. -/
def req_c : UploadReq := { caption := none, is_primary := false, filename := "c.jpg" }

/-- Update body with every field unset. -/
def empty_update : PropertyUpdateData :=
  { title := none, description := none, category := none, city := none
    state := none, price := none, bedrooms := none, bathrooms := none
    is_published := none }

/-! ## Helper lemmas -/

/-- Caller resolution only reads the `users` table. -/
theorem findBySupabaseId_congr {db1 db2 : DB} (h : db1.users = db2.users)
    (cu : SupabaseUser) : db1.findBySupabaseId cu = db2.findBySupabaseId cu := by
  unfold DB.findBySupabaseId
  rw [h]

/-- Property lookup only reads the `properties` table. -/
theorem findProperty_congr {db1 db2 : DB} (h : db1.properties = db2.properties)
    (pid : String) : db1.findProperty pid = db2.findProperty pid := by
  unfold DB.findProperty
  rw [h]

/-- Clearing the primary flags of a property leaves it with no primary image. -/
theorem cleared_no_primary (images : List PImage) (pid : String) :
    (images.map (fun img =>
        if img.property_id == pid then { img with is_primary := false } else img)).filter
      (fun i => i.property_id == pid && i.is_primary) = [] := by
  rw [List.filter_eq_nil_iff]
  intro a ha
  simp only [List.mem_map] at ha
  obtain ⟨b, _, rfl⟩ := ha
  by_cases hbp : b.property_id = pid
  · simp [hbp]
  · simp [hbp]

/-- Characterization of a successful owner upload: the handler succeeds, the
users and properties tables are untouched, the id counter advances, the new
image carries the request's data, and the primary set of the property is
preserved (non-primary upload) or becomes exactly the new image (primary
upload). -/
theorem upload_owner_ok (db : DB) (pid : String) (c : Option String) (ip : Bool)
    (fn : String) (cu : SupabaseUser) (store : String → String)
    (gen : String → Except Unit String) (u : DBUser) (p : PropertyRow)
    (hu : db.findBySupabaseId cu = some u)
    (hp : db.findProperty pid = some p)
    (hown : p.user_id = u.id) :
    ∃ img db1,
      upload_property_image db pid c ip fn cu store gen = .ok (img, db1) ∧
      db1.users = db.users ∧ db1.properties = db.properties ∧
      db1.nextId = db.nextId + 1 ∧
      img.is_primary = ip ∧ img.property_id = pid ∧ img.created_at = db.nextId ∧
      img.storage_path = "properties/" ++ pid ++ "/" ++ fn ∧ img.caption = c ∧
      (ip = false → db1.primaryImages pid = db.primaryImages pid) ∧
      (ip = true → db1.primaryImages pid = [img]) := by
  have hcond : ¬(p.user_id ≠ u.id) := fun h => h hown
  simp only [upload_property_image, hu, hp, if_neg hcond]
  refine ⟨_, _, rfl, rfl, rfl, rfl, rfl, rfl, rfl, rfl, rfl, ?_, ?_⟩
  · intro h
    subst h
    simp [DB.primaryImages, List.filter_append]
  · intro h
    subst h
    simp only [DB.primaryImages, List.filter_append, List.filter_eq_nil_iff]
    simp [List.mem_map]
    intro a _
    by_cases hap : a.property_id = pid
    · simp [hap]
    · simp [hap]

/-- Splitting an upload sequence at an append. -/
theorem upload_sequence_append (pid : String) (cu : SupabaseUser)
    (store : String → String) (gen : String → Except Unit String)
    (xs ys : List UploadReq) (db : DB) :
    upload_sequence pid cu store gen db (xs ++ ys) =
      match upload_sequence pid cu store gen db xs with
      | .error e => .error e
      | .ok db1 => upload_sequence pid cu store gen db1 ys := by
  induction xs generalizing db with
  | nil => simp [upload_sequence]
  | cons x xs ih =>
    simp only [List.cons_append, upload_sequence]
    cases upload_property_image db pid x.caption x.is_primary x.filename cu store gen with
    | error e => rfl
    | ok r => exact ih r.2

/-- A sequence of non-primary owner uploads succeeds, leaves the users and
properties tables and the primary set of the property unchanged, and
advances the id counter by its length. -/
theorem upload_sequence_nonprimary (pid : String) (cu : SupabaseUser)
    (store : String → String) (gen : String → Except Unit String)
    (rs : List UploadReq) :
    ∀ (db : DB) (u : DBUser) (p : PropertyRow),
      db.findBySupabaseId cu = some u → db.findProperty pid = some p →
      p.user_id = u.id → (∀ r ∈ rs, r.is_primary = false) →
      ∃ db1, upload_sequence pid cu store gen db rs = .ok db1 ∧
        db1.users = db.users ∧ db1.properties = db.properties ∧
        db1.nextId = db.nextId + rs.length ∧
        db1.primaryImages pid = db.primaryImages pid := by
  induction rs with
  | nil =>
    intro db u p _ _ _ _
    exact ⟨db, rfl, rfl, rfl, rfl, rfl⟩
  | cons r rs ih =>
    intro db u p hu hp hown hall
    obtain ⟨img, db1, heq, husers, hprops, hnext, hip, _, _, _, _, hfalse, _⟩ :=
      upload_owner_ok db pid r.caption r.is_primary r.filename cu store gen u p hu hp hown
    have hr : r.is_primary = false := hall r (List.mem_cons_self r rs)
    obtain ⟨db2, hseq, husers2, hprops2, hnext2, hprim2⟩ :=
      ih db1 u p ((findBySupabaseId_congr husers cu).trans hu)
        ((findProperty_congr hprops pid).trans hp) hown
        (fun q hq => hall q (List.mem_cons_of_mem r hq))
    refine ⟨db2, ?_, husers2.trans husers, hprops2.trans hprops, ?_, hprim2.trans (hfalse hr)⟩
    · simp only [upload_sequence, heq, hseq]
    · rw [hnext2, hnext, List.length_cons]
      omega

/-! ## Claim theorems -/

/-- C1: for every property and every sequence of image uploads by its owner
in which exactly the k-th request is marked primary (`pre` holds the k
earlier requests, all non-primary; `post` the later ones, all non-primary),
the whole sequence succeeds and afterwards exactly one `PropertyImage` row
of that property has `is_primary = true`, namely the k-th uploaded one —
identified by creation stamp `db.nextId + k` and the k-th request's storage
path — because `upload_property_image` clears every pre-existing sibling's
flag before inserting a primary row. -/
theorem upload_primary_invariant (db : DB) (pid : String) (cu : SupabaseUser)
    (store : String → String) (gen : String → Except Unit String)
    (u : DBUser) (p : PropertyRow) (pre post : List UploadReq) (rk : UploadReq)
    (hu : db.findBySupabaseId cu = some u)
    (hp : db.findProperty pid = some p)
    (hown : p.user_id = u.id)
    (hpre : ∀ r ∈ pre, r.is_primary = false)
    (hrk : rk.is_primary = true)
    (hpost : ∀ r ∈ post, r.is_primary = false) :
    (upload_sequence pid cu store gen db (pre ++ rk :: post)).map
        (fun dbf => (dbf.primaryImages pid).map
          (fun i => (i.property_id, i.is_primary, i.created_at, i.storage_path)))
      = .ok [(pid, true, db.nextId + pre.length,
              "properties/" ++ pid ++ "/" ++ rk.filename)] := by
  obtain ⟨db1, hseq1, hus1, hpr1, hnext1, hprim1⟩ :=
    upload_sequence_nonprimary pid cu store gen pre db u p hu hp hown hpre
  have hu1 : db1.findBySupabaseId cu = some u := (findBySupabaseId_congr hus1 cu).trans hu
  have hp1 : db1.findProperty pid = some p := (findProperty_congr hpr1 pid).trans hp
  obtain ⟨img, db2, heq2, hus2, hpr2, hnext2, hip2, hpid2, hcreated2, hpath2, _, _, htrue⟩ :=
    upload_owner_ok db1 pid rk.caption rk.is_primary rk.filename cu store gen u p hu1 hp1 hown
  have hprim2 : db2.primaryImages pid = [img] := htrue hrk
  have hu2 : db2.findBySupabaseId cu = some u := (findBySupabaseId_congr hus2 cu).trans hu1
  have hp2 : db2.findProperty pid = some p := (findProperty_congr hpr2 pid).trans hp1
  obtain ⟨db3, hseq3, _, _, _, hprim3⟩ :=
    upload_sequence_nonprimary pid cu store gen post db2 u p hu2 hp2 hown hpost
  rw [upload_sequence_append, hseq1]
  simp only [upload_sequence, heq2, hseq3]
  simp [Except.map, hprim3, hprim2, hpid2, hip2, hrk, hcreated2, hpath2, hnext1]

/-- Witness for C1: three uploads to the example property, of which exactly
the second is primary, end with exactly one primary image — the second one
(creation stamp `10 + 1 = 11`, path `properties/p1/b.jpg`) — even though
the property already had a primary image before the sequence. -/
theorem upload_primary_invariant_witness :
    (upload_sequence "p1" alice_caller ex_store ex_gen_ok exampleDb
        [req_a, req_b, req_c]).map
        (fun dbf => (dbf.primaryImages "p1").map
          (fun i => (i.property_id, i.is_primary, i.created_at, i.storage_path)))
      = .ok [("p1", true, 11, "properties/p1/b.jpg")] := by
  have h := upload_primary_invariant exampleDb "p1" alice_caller ex_store ex_gen_ok
    alice unpublished_prop [req_a] [req_c] req_b (by decide) (by decide) (by decide)
    (by decide) (by decide) (by decide)
  exact h.trans (by simp only [Except.ok.injEq]; decide)

/-- C2: for an existing unpublished property, `get_property` returns 403
Forbidden to an anonymous caller and to every authenticated caller whose
resolved user id differs from the owner id, returns the property itself to
the owner, and returns 404 NotFound for a nonexistent property id. -/
theorem get_property_visibility (db : DB) (pid : String) (p : PropertyRow)
    (hp : db.findProperty pid = some p) (hunpub : p.is_published = false) :
    statusCode (get_property db pid none) = 403 ∧
    (∀ (cu : SupabaseUser) (u : DBUser), db.findBySupabaseId cu = some u →
      u.id ≠ p.user_id → statusCode (get_property db pid (some cu)) = 403) ∧
    (∀ (cu : SupabaseUser) (u : DBUser), db.findBySupabaseId cu = some u →
      u.id = p.user_id →
      (get_property db pid (some cu)).map PropertyOut.property = .ok p) ∧
    (∀ (pid2 : String) (caller : Option SupabaseUser), db.findProperty pid2 = none →
      get_property db pid2 caller = .error (.notFound "Property not found")) := by
  refine ⟨?_, ?_, ?_, ?_⟩
  · simp [get_property, hp, hunpub, statusCode, HError.status]
  · intro cu u hcu hne
    simp [get_property, hp, hunpub, hcu, Ne.symm hne, statusCode, HError.status]
  · intro cu u hcu hid
    simp [get_property, hp, hunpub, hcu, hid, Except.map]
  · intro pid2 caller h
    cases caller <;> simp [get_property, h]

/-- Witness for C2 on the example database: anonymous and non-owner callers
get 403 on the unpublished property, the owner gets the property, and a
missing id gets 404. -/
theorem get_property_visibility_witness :
    statusCode (get_property exampleDb "p1" none) = 403 ∧
    statusCode (get_property exampleDb "p1" (some bob_caller)) = 403 ∧
    (get_property exampleDb "p1" (some alice_caller)).map PropertyOut.property
      = .ok unpublished_prop ∧
    get_property exampleDb "missing" none = .error (.notFound "Property not found") := by
  have h := get_property_visibility exampleDb "p1" unpublished_prop (by decide) (by decide)
  exact ⟨h.1, h.2.1 bob_caller bob (by decide) (by decide),
         h.2.2.1 alice_caller alice (by decide) (by decide),
         h.2.2.2 "missing" none (by decide)⟩

/-- C3 (divergence): the claim expects an anonymous GET (no Authorization
header) of a published property to return 200 with the body; on the actual
request path the module-level `HTTPBearer()` scheme (`auto_error=True`)
rejects every request without the header with 403 "Not authenticated"
before `get_property` ever runs, published or not. -/
theorem http_get_property_anonymous_published_403 :
    published_prop.is_published = true ∧
    http_get_property exampleDb "p2" "supabase-secret" 1000 none
      = .error (.forbidden "Not authenticated") ∧
    statusCode (http_get_property exampleDb "p2" "supabase-secret" 1000 none) ≠ 200 :=
  ⟨rfl, rfl, by decide⟩

/-- C4 (divergence): an anonymous request for the images of an unpublished
property is not rejected — the guard `if not property.is_published and
current_user:` skips the ownership check when no caller is present — so the
handler returns the image list with status 200 where the claim (and the
sibling `get_property` handler) requires 403 Forbidden. -/
theorem get_property_images_anonymous_unpublished_200 :
    unpublished_prop.is_published = false ∧
    get_property_images exampleDb "p1" none = .ok [example_image] ∧
    statusCode (get_property_images exampleDb "p1" none) = 200 := by
  refine ⟨rfl, ?_, ?_⟩
  · simp [get_property_images, exampleDb, DB.findProperty, unpublished_prop,
      published_prop, DB.imagesOf, example_image]
  · simp [get_property_images, exampleDb, DB.findProperty, unpublished_prop,
      published_prop, statusCode]

/-- C5 counterexample: `create_property` succeeds with HTTP 200 for a caller
whose resolved local user row has `is_active = false`, where the claim
requires the operation to fail with Forbidden. -/
theorem create_property_inactive_user_200 :
    carol_inactive.is_active = false ∧
    statusCode (create_property exampleDb apartment_data carol_caller) = 200 :=
  ⟨rfl, rfl⟩

/-- C5 (amended): every property operation fails with 404 "User not found in
database" when the token resolves to no local user row; the Forbidden
rejection of inactive users is implemented only by the
`get_current_active_user` dependency, which no property endpoint uses —
the property operations perform no active-flag check, so an inactive
user's create succeeds. -/
theorem property_ops_user_resolution (db : DB) (cu : SupabaseUser)
    (pid : String) (pd : PropertyCreateData) (upd : PropertyUpdateData)
    (c : Option String) (ip : Bool) (fn : String)
    (store : String → String) (gen : String → Except Unit String) :
    (db.findBySupabaseId cu = none →
      create_property db pd cu = .error (.notFound "User not found in database") ∧
      update_property db pid upd cu = .error (.notFound "User not found in database") ∧
      delete_property db pid cu = .error (.notFound "User not found in database") ∧
      upload_property_image db pid c ip fn cu store gen
        = .error (.notFound "User not found in database") ∧
      get_current_active_user db cu = .error (.notFound "User not found in database")) ∧
    (∀ u : DBUser, db.findBySupabaseId cu = some u → u.is_active = false →
      get_current_active_user db cu = .error (.forbidden "Inactive user") ∧
      statusCode (create_property db pd cu) = 200) := by
  constructor
  · intro h
    refine ⟨?_, ?_, ?_, ?_, ?_⟩ <;>
      simp [create_property, update_property, delete_property, upload_property_image,
        get_current_active_user, h]
  · intro u hu hina
    constructor
    · simp [get_current_active_user, hu, hina]
    · simp [create_property, hu, statusCode]

/-- Witness for C5 (amended): on the example database, a caller with no
local row gets 404 from `create_property`, and the inactive user is
rejected by `get_current_active_user` while her `create_property` call
nonetheless succeeds. -/
theorem property_ops_user_resolution_witness :
    create_property exampleDb apartment_data ghost_caller
      = .error (.notFound "User not found in database") ∧
    get_current_active_user exampleDb carol_caller
      = .error (.forbidden "Inactive user") ∧
    statusCode (create_property exampleDb apartment_data carol_caller) = 200 := by
  have h1 := property_ops_user_resolution exampleDb ghost_caller "p1" apartment_data
    empty_update none false "f.jpg" ex_store ex_gen_ok
  have h2 := property_ops_user_resolution exampleDb carol_caller "p1" apartment_data
    empty_update none false "f.jpg" ex_store ex_gen_ok
  exact ⟨(h1.1 (by decide)).1, (h2.2 carol_inactive (by decide) (by decide)).1,
         (h2.2 carol_inactive (by decide) (by decide)).2⟩

/-- C6 (divergence): `register_user` can never succeed for a fresh email —
the `UserCreate` schema of `app/schemas/user.py` declares no `password`
field, so the handler line `get_password_hash(user_data.password)` raises
`AttributeError`, surfaced as HTTP 500; register-then-login therefore fails
at the first step for every (email, password) pair.  The hashing round trip
`verify_password(p, get_password_hash(p))` the claim relies on does hold. -/
theorem register_user_attribute_error :
    register_user exampleDb "jwt-secret" 1000
        { email := "new@example.com", full_name := some "New"
          is_active := true, supabase_id := "s4" }
      = .error (.internalError "AttributeError: UserCreate object has no attribute password")
    ∧ (∀ p : String, verify_password p (get_password_hash p) = true) := by
  constructor
  · rfl
  · intro p
    simp [verify_password]

/-- C7: verifying an access token with the issuing secret immediately after
issuance yields a payload whose `sub` is the issued subject; at any time
after the 30-minute expiry window has passed, verification fails. -/
theorem verify_access_token_roundtrip (secret x : String) (t0 t : Nat)
    (hlate : t0 + ACCESS_TOKEN_EXPIRE_MINUTES * 60 < t) :
    (verify_token secret t0 (create_access_token secret x t0)).map Claims.sub = some x ∧
    verify_token secret t (create_access_token secret x t0) = none := by
  constructor
  · simp [verify_token, create_access_token]
  · have h : ¬(t ≤ t0 + ACCESS_TOKEN_EXPIRE_MINUTES * 60) := by omega
    simp [verify_token, create_access_token, h]

/-- Witness for C7 with secret "k", subject "u1", issuance at 0 and a check
one second past the 1800-second window. -/
theorem verify_access_token_roundtrip_witness :
    (verify_token "k" 0 (create_access_token "k" "u1" 0)).map Claims.sub = some "u1" ∧
    verify_token "k" 1801 (create_access_token "k" "u1" 0) = none :=
  verify_access_token_roundtrip "k" "u1" 0 1801 (by decide)

/-- C8: property creation validates the category case-insensitively against
the fixed list and normalizes it to lowercase — a body with category
"Apartment" succeeds and the stored row carries "apartment", while a body
with category "spaceship" fails with a 422 validation error and leaves the
database unchanged. -/
theorem category_validation (db : DB) (cu : SupabaseUser) (u : DBUser)
    (i : PropertyCreateInput)
    (hu : db.findBySupabaseId cu = some u)
    (htitle : 3 ≤ i.title.length ∧ i.title.length ≤ 255) :
    (i.category = "Apartment" →
      statusCode (create_property_run db i cu).1 = 200 ∧
      (create_property_run db i cu).1.map PropertyRow.category = .ok "apartment" ∧
      (create_property_run db i cu).2.properties.map PropertyRow.category
        = db.properties.map PropertyRow.category ++ ["apartment"]) ∧
    (i.category = "spaceship" →
      statusCode (create_property_run db i cu).1 = 422 ∧
      (create_property_run db i cu).2 = db) := by
  constructor
  · intro hc
    have hlen : 2 ≤ i.category.length ∧ i.category.length ≤ 50 := by rw [hc]; decide
    have hval : validate_category i.category = .ok "apartment" := by rw [hc]; rfl
    unfold create_property_run parse_property_create
    rw [if_neg (not_not_intro htitle), if_neg (not_not_intro hlen), hval]
    simp [create_property, hu, statusCode, Except.map]
  · intro hc
    have hlen : 2 ≤ i.category.length ∧ i.category.length ≤ 50 := by rw [hc]; decide
    have hval : validate_category i.category
        = .error ("Category must be one of: "
            ++ String.intercalate ", " allowed_categories) := by rw [hc]; rfl
    unfold create_property_run parse_property_create
    rw [if_neg (not_not_intro htitle), if_neg (not_not_intro hlen), hval]
    simp [statusCode, HError.status]

/-- Witness for C8: both category payloads evaluated on the example
database. -/
theorem category_validation_witness :
    (statusCode (create_property_run exampleDb (example_input "Apartment") alice_caller).1
        = 200 ∧
      (create_property_run exampleDb (example_input "Apartment") alice_caller).1.map
          PropertyRow.category = .ok "apartment" ∧
      (create_property_run exampleDb (example_input "Apartment") alice_caller).2.properties.map
          PropertyRow.category
        = exampleDb.properties.map PropertyRow.category ++ ["apartment"]) ∧
    (statusCode (create_property_run exampleDb (example_input "spaceship") alice_caller).1
        = 422 ∧
      (create_property_run exampleDb (example_input "spaceship") alice_caller).2
        = exampleDb) := by
  have hA := category_validation exampleDb alice_caller alice (example_input "Apartment")
    (by decide) (by decide)
  have hS := category_validation exampleDb alice_caller alice (example_input "spaceship")
    (by decide) (by decide)
  exact ⟨hA.1 rfl, hS.2 rfl⟩

/-- C9: when the captioning call fails, the owner's upload still succeeds
and the stored image's `ai_generated_description` is absent, with storage
path, URL, caption, and primary flag identical to a successful-captioning
run; and the `generate_property_description` adapter itself returns the
fixed fallback pair on any failure instead of propagating it. -/
theorem upload_ai_failure_tolerance (db : DB) (pid : String) (c : Option String)
    (ip : Bool) (fn : String) (cu : SupabaseUser) (store : String → String)
    (d : String) (u : DBUser) (p : PropertyRow)
    (hu : db.findBySupabaseId cu = some u)
    (hp : db.findProperty pid = some p)
    (hown : p.user_id = u.id) :
    (upload_property_image db pid c ip fn cu store (fun _ => .error ())).map
        (fun r => r.1.ai_generated_description) = .ok none ∧
    (upload_property_image db pid c ip fn cu store (fun _ => .ok d)).map
        (fun r => r.1.ai_generated_description) = .ok (some d) ∧
    (upload_property_image db pid c ip fn cu store (fun _ => .error ())).map
        (fun r => (r.1.storage_path, r.1.url, r.1.caption, r.1.is_primary))
      = (upload_property_image db pid c ip fn cu store (fun _ => .ok d)).map
        (fun r => (r.1.storage_path, r.1.url, r.1.caption, r.1.is_primary)) ∧
    (∀ e : Unit, generate_property_description (.error e)
      = { title := "Property Listing", description := "No description available." }) := by
  have hcond : ¬(p.user_id ≠ u.id) := fun h => h hown
  refine ⟨?_, ?_, ?_, fun e => rfl⟩ <;>
    simp [upload_property_image, hu, hp, if_neg hcond, Except.map]

/-- Witness for C9 on the example database and property. -/
theorem upload_ai_failure_tolerance_witness :
    (upload_property_image exampleDb "p1" (some "hall") false "z.jpg" alice_caller ex_store
        (fun _ => .error ())).map (fun r => r.1.ai_generated_description) = .ok none ∧
    (upload_property_image exampleDb "p1" (some "hall") false "z.jpg" alice_caller ex_store
        (fun _ => .ok "A bright room.")).map (fun r => r.1.ai_generated_description)
      = .ok (some "A bright room.") ∧
    (upload_property_image exampleDb "p1" (some "hall") false "z.jpg" alice_caller ex_store
        (fun _ => .error ())).map
        (fun r => (r.1.storage_path, r.1.url, r.1.caption, r.1.is_primary))
      = (upload_property_image exampleDb "p1" (some "hall") false "z.jpg" alice_caller ex_store
        (fun _ => .ok "A bright room.")).map
        (fun r => (r.1.storage_path, r.1.url, r.1.caption, r.1.is_primary)) ∧
    (∀ e : Unit, generate_property_description (.error e)
      = { title := "Property Listing", description := "No description available." }) := by
  exact upload_ai_failure_tolerance exampleDb "p1" (some "hall") false "z.jpg" alice_caller
    ex_store "A bright room." alice unpublished_prop (by decide) (by decide) (by decide)

/-- C10: refreshing with a refresh token of an existing user succeeds and
returns a new token pair for that user, while refreshing with an access
token — validly signed and unexpired, but carrying no `token_type` tag —
fails with 401 "Invalid refresh token". -/
theorem refresh_token_type_check (db : DB) (secret x : String) (t0 now : Nat) (u : DBUser)
    (hu : db.users.find? (fun v => v.id == x) = some u)
    (hx : x ≠ "")
    (hfresh : now ≤ t0 + REFRESH_TOKEN_EXPIRE_DAYS * 86400)
    (hfresh2 : now ≤ t0 + ACCESS_TOKEN_EXPIRE_MINUTES * 60) :
    refresh_token db secret now (create_refresh_token secret x t0)
      = .ok { access_token := create_access_token secret u.id now
              refresh_token := create_refresh_token secret u.id now
              token_type := "bearer" } ∧
    verify_token secret now (create_access_token secret x t0)
      = some { sub := x, exp := t0 + ACCESS_TOKEN_EXPIRE_MINUTES * 60, token_type := none } ∧
    refresh_token db secret now (create_access_token secret x t0)
      = .error (.unauthorized "Invalid refresh token") := by
  refine ⟨?_, ?_, ?_⟩
  · simp [refresh_token, verify_token, create_refresh_token, create_access_token,
      hfresh, hx, hu]
  · simp [verify_token, create_access_token, hfresh2]
  · simp [refresh_token, verify_token, create_access_token, hfresh2]

/-- Witness for C10: concrete refresh attempts with both token kinds. -/
theorem refresh_token_type_check_witness :
    refresh_token exampleDb "k" 100 (create_refresh_token "k" "u1" 50)
      = .ok { access_token := create_access_token "k" "u1" 100
              refresh_token := create_refresh_token "k" "u1" 100
              token_type := "bearer" } ∧
    verify_token "k" 100 (create_access_token "k" "u1" 50)
      = some { sub := "u1", exp := 50 + ACCESS_TOKEN_EXPIRE_MINUTES * 60
               token_type := none } ∧
    refresh_token exampleDb "k" 100 (create_access_token "k" "u1" 50)
      = .error (.unauthorized "Invalid refresh token") := by
  exact refresh_token_type_check exampleDb "k" "u1" 50 100 alice (by decide) (by decide)
    (by decide) (by decide)
